import Mathlib

/-!
Verification of the chat-operated remote-control bot (Telegram PC controller).

This file gives a shallow embedding of the repository's data model
(src/database/models.py), repository layer (src/database/repository.py),
services (src/services/pc_manager.py, src/services/wol.py,
src/services/notifications.py) and command/callback handlers
(src/handlers/authorization.py, src/handlers/pc_control.py,
src/handlers/wol.py, src/handlers/notifications.py, src/handlers/dota.py),
and proves the spec's testable properties against it.

Conventions:
* timestamps are natural numbers; every place the source calls
  `datetime.utcnow()` or relies on a DB default takes an explicit `now`;
* external I/O (Telegram sends, shell commands, magic packets, psutil
  queries, the Dota HTTP API) is recorded as a list of `Effect`s, with
  outcomes supplied by an `Env` of oracles;
* message texts are abstracted to a `Msg` tag per distinct response
  (the handlers' access-denied texts differ in wording between files but
  are all access-denied responses, and are modelled by one tag).
-/

namespace Control

/-- src/database/models.py, class User: one chat participant.
    Column defaults: `is_authorized=False`, `is_admin=False`,
    `notifications_enabled=True`. -/
structure User where
  id : Nat
  telegram_id : Nat
  username : Option String
  first_name : Option String
  last_name : Option String
  is_authorized : Bool
  is_admin : Bool
  notifications_enabled : Bool
  created_at : Nat
  deriving Repr, DecidableEq

/-- src/database/models.py, class AuthRequest: one request for elevated
    trust.  `status` defaults to "pending"; `processed_at` and
    `processed_by_id` are nullable. -/
structure AuthRequest where
  id : Nat
  user_id : Nat
  status : String
  requested_at : Nat
  processed_at : Option Nat
  processed_by_id : Option Nat
  deriving Repr, DecidableEq

/-- src/database/models.py, class LogEntry: append-only audit record. -/
structure LogEntry where
  user_id : Option Nat
  action : String
  details : Option String
  ip_address : Option String
  created_at : Nat
  deriving Repr, DecidableEq

/-- src/database/models.py, class PCStatus: singleton liveness cache. -/
structure PCStatus where
  is_online : Bool
  ip_address : Option String
  hostname : Option String
  last_check : Nat
  last_wake_attempt : Option Nat
  deriving Repr, DecidableEq

/-- src/database/models.py, class DotaMatch (summary fields only; no
    handler modelled here mutates this table). -/
structure DotaMatch where
  match_id : Nat
  kills : Option Nat
  deaths : Option Nat
  assists : Option Nat
  duration : Option Nat
  deriving Repr, DecidableEq

/-- The persistent store owned by DatabaseRepository
    (src/database/repository.py).  Lists grow by appending, matching SQL
    insertion order; autoincrement ids are `length + 1`. -/
structure Store where
  users : List User
  auth_requests : List AuthRequest
  log_entries : List LogEntry
  pc_status : Option PCStatus
  dota_matches : List DotaMatch
  deriving Repr, DecidableEq

/-- repository.get_user_by_telegram_id: first user with the Telegram id. -/
def get_user_by_telegram_id (st : Store) (telegram_id : Nat) : Option User :=
  st.users.find? (fun u => u.telegram_id == telegram_id)

/-- repository.create_user: insert a fresh user; the trust flags come from
    the model's column defaults (`is_authorized=False`, `is_admin=False`,
    `notifications_enabled=True`). -/
def create_user (st : Store) (telegram_id : Nat) (username first_name last_name : Option String)
    (now : Nat) : User × Store :=
  let u : User :=
    { id := st.users.length + 1
      telegram_id := telegram_id
      username := username
      first_name := first_name
      last_name := last_name
      is_authorized := false
      is_admin := false
      notifications_enabled := true
      created_at := now }
  (u, { st with users := st.users ++ [u] })

/-- repository.get_all_authorized_users: `WHERE is_authorized == True`. -/
def get_all_authorized_users (st : Store) : List User :=
  st.users.filter (fun u => u.is_authorized)

/-- repository.update_user: write back a (modified) user row, matched by
    primary key. -/
def update_user (st : Store) (u : User) : Store :=
  { st with users := st.users.map (fun v => if v.id == u.id then u else v) }

/-- repository.create_auth_request: insert a request with status
    "pending" (processed fields null). -/
def create_auth_request (st : Store) (user_id : Nat) (now : Nat) : AuthRequest × Store :=
  let r : AuthRequest :=
    { id := st.auth_requests.length + 1
      user_id := user_id
      status := "pending"
      requested_at := now
      processed_at := none
      processed_by_id := none }
  (r, { st with auth_requests := st.auth_requests ++ [r] })

/-- repository.get_pending_auth_requests: `WHERE status == "pending"`. -/
def get_pending_auth_requests (st : Store) : List AuthRequest :=
  st.auth_requests.filter (fun r => r.status == "pending")

/-- repository.update_auth_request: set status, stamp `processed_at`,
    record the processor.  NOTE: defined by the repository but never
    called by any handler in src/handlers/. -/
def update_auth_request (st : Store) (request_id : Nat) (status : String)
    (processed_by_id : Option Nat) (now : Nat) : Store :=
  { st with auth_requests :=
      st.auth_requests.map (fun r =>
        if r.id == request_id then
          { r with status := status, processed_at := some now,
                   processed_by_id := processed_by_id }
        else r) }

/-- Python `x or y` on an optional string: `None` and the empty string are
    falsy, so both fall back to `y`. -/
def pyOrStr (new old : Option String) : Option String :=
  match new with
  | none => old
  | some s => if s.isEmpty then old else some s

/-- A fresh `PCStatus()` row, with the model's column defaults. -/
def freshPCStatus (now : Nat) : PCStatus :=
  { is_online := false, ip_address := none, hostname := none,
    last_check := now, last_wake_attempt := none }

/-- repository.update_pc_status: create the singleton row if absent, then
    `is_online` and `last_check` are overwritten unconditionally while
    `ip_address` and `hostname` use `new or old`. -/
def update_pc_status (st : Store) (is_online : Bool)
    (ip_address hostname : Option String) (now : Nat) : PCStatus × Store :=
  let status0 := match st.pc_status with
    | some s => s
    | none => freshPCStatus now
  let status1 : PCStatus :=
    { status0 with
      is_online := is_online
      ip_address := pyOrStr ip_address status0.ip_address
      hostname := pyOrStr hostname status0.hostname
      last_check := now }
  (status1, { st with pc_status := some status1 })

/-- repository.update_last_wake_attempt: stamp the wake-attempt time on
    the singleton row (creating it if absent). -/
def update_last_wake_attempt (st : Store) (now : Nat) : Store :=
  let status0 := match st.pc_status with
    | some s => s
    | none => freshPCStatus now
  { st with pc_status := some { status0 with last_wake_attempt := some now } }

/-- repository.add_log_entry: append-only audit insertion. -/
def add_log_entry (st : Store) (action : String) (user_id : Option Nat)
    (details : Option String) (ip_address : Option String) (now : Nat) : Store :=
  { st with log_entries := st.log_entries ++
      [{ user_id := user_id, action := action, details := details,
         ip_address := ip_address, created_at := now }] }

/-- repository.get_log_entries: most-recent-first with a limit (rows are
    appended in creation order, so most-recent-first is the reverse). -/
def get_log_entries (st : Store) (limit : Nat) : List LogEntry :=
  st.log_entries.reverse.take limit

/-- One tag per distinct bot response.  Texts are abstracted; all the
    handlers' access-denied answers (Russian and English variants) share
    the `accessDenied` tag. -/
inductive Msg where
  | accessDenied
  | welcomeBack
  | welcomeNew
  | helpText
  | usageAuth
  | invalidAction
  | invalidUserId
  | userNotFound (uid : Nat)
  | userApproved (uid : Nat)
  | userRejected (uid : Nat)
  | authApprovedNote
  | authRejectedNote
  | authRequestNote (uid : Nat)
  | alreadyAuthorized
  | requestSent
  | useStartFirst
  | callbackOk
  | confirmRebootPrompt
  | confirmShutdownPrompt
  | cancelDone
  | nothingToCancel
  | usageCmd
  | executing (command : String)
  | cmdResult (success : Bool)
  | statusChecking
  | statusReport (online : Bool)
  | screenshotWait
  | screenshotCaption
  | screenshotFail
  | processesReport
  | processesFail
  | wakeSending
  | wakeSent
  | wakeOnline
  | wakeNotResponding
  | wakeFailed
  | wakeError
  | pcStatusChange (online : Bool)
  | notifyToggled (enabled : Bool)
  | logsReport
  | noLogs
  | dotaLoading
  | dotaReport
  | dotaNoData
  | dotaLiveNotFound
  | dotaUsageBuffs
  | dotaInvalidMatchId
  | dotaBuffsUnavailable
  | dotaBuffsReport (match_id : Nat)
  | scheduled (action : String)
  | scheduleFailed (action : String)
  deriving Repr

/-- One record per external side effect performed by a handler:
    Telegram sends/edits/answers, shell invocations, power-management
    calls and magic-packet transmissions. -/
inductive Effect where
  | sendMessage (chat_id : Nat) (msg : Msg)
  | sendPhoto (chat_id : Nat)
  | answerCallback (msg : Msg)
  | answerCallbackPlain
  | editMessage (msg : Msg)
  | shellExec (command : String)
  | pcRebootCall (delay_minutes : Nat)
  | pcShutdownCall (delay_minutes : Nat)
  | pcCancelCall
  | magicPacketSend
  deriving Repr

/-- Outcomes of the external world, one oracle per fallible call. -/
structure Env where
  now : Nat
  /-- Telegram transport: does a send to this chat id succeed? -/
  sendOk : Nat → Bool
  /-- PCManager.check_online result. -/
  checkOnline : Bool
  /-- PCManager.take_screenshot returns data? -/
  screenshotOk : Bool
  /-- PCManager.cancel_shutdown underlying `shutdown -c` succeeds? -/
  cancelOk : Bool
  /-- PCManager.reboot underlying `shutdown -r` succeeds? -/
  rebootOk : Bool
  /-- PCManager.shutdown underlying `shutdown -h` succeeds? -/
  shutdownOk : Bool
  /-- shell subprocess: return code is zero? -/
  execReturncodeZero : Bool
  /-- shell subprocess: hits the 30s timeout? -/
  execTimesOut : Bool
  /-- PCManager.get_running_processes returns a nonempty list? -/
  processesNonempty : Bool
  /-- configured MAC address passes validate_mac_address? -/
  macValid : Bool
  /-- WakeOnLanService.send_magic_packet outcome per attempt index. -/
  wolSend : Nat → Bool
  /-- WakeOnLanService.verify_wake result. -/
  verifyWake : Bool
  /-- DotaMonitor.get_match_history(limit=10) nonempty? -/
  dotaHistoryNonempty : Bool
  /-- DotaMonitor.get_live_match found a live match? -/
  dotaLiveFound : Bool
  /-- DotaMonitor.get_match_history(limit=1): id of the last match. -/
  dotaRecentMatch : Option Nat
  /-- DotaMonitor.get_match_buffs returned player data? -/
  dotaBuffsFound : Bool

/-- Configuration surface consumed by the modelled handlers
    (src/config/settings.py / bot.config). -/
structure Settings where
  admin_ids : List Nat
  pc_ip_address : String
  notify_on_pc_status : Bool

/-- Python fault raised by a slip in the source. -/
inductive PyErr where
  /-- `NotificationService()` called with no argument while
      `NotificationService.__init__(self, bot)` has a required positional
      parameter (src/handlers/pc_control.py:358 vs
      src/services/notifications.py:15). -/
  | notificationServiceMissingBot
  deriving Repr, DecidableEq

/-- Python `s.strip()` at the character level (kernel-reducible, unlike
    the position-based String.trim). -/
def pyStrip (s : String) : String :=
  String.mk (((s.data.dropWhile Char.isWhitespace).reverse.dropWhile
    Char.isWhitespace).reverse)

/-- Tokenizer behind Python `s.split()` (no argument): maximal runs of
    non-whitespace characters; `acc` holds the current token reversed. -/
def pyTokensAux (acc : List Char) : List Char → List String
  | [] => if acc.isEmpty then [] else [String.mk acc.reverse]
  | c :: rest =>
    if c.isWhitespace then
      if acc.isEmpty then pyTokensAux [] rest
      else String.mk acc.reverse :: pyTokensAux [] rest
    else pyTokensAux (c :: acc) rest

/-- Python `s.split()`: whitespace-separated nonempty tokens. -/
def pySplit (s : String) : List String :=
  pyTokensAux [] s.data

/-- `command.strip().split()[0] if command.strip() else ""` from
    PCManager.execute_command. -/
def firstToken (command : String) : String :=
  String.mk ((command.data.dropWhile Char.isWhitespace).takeWhile
    (fun c => ¬ c.isWhitespace))

/-- Drop the first occurrence of `pat` from a character list. -/
def dropFirstOccur (pat : List Char) : List Char → List Char
  | [] => []
  | c :: rest =>
    if pat.isPrefixOf (c :: rest) then List.drop pat.length (c :: rest)
    else c :: dropFirstOccur pat rest

/-- Python `s.replace(pat, "", 1)`: drop the first occurrence of `pat`. -/
def replaceFirst (s pat : String) : String :=
  String.mk (dropFirstOccur pat.data s.data)

/-- Splitter behind Python `s.split(sep)` for a one-character separator. -/
def splitOnCharAux (sep : Char) (acc : List Char) : List Char → List String
  | [] => [String.mk acc.reverse]
  | c :: rest =>
    if c = sep then String.mk acc.reverse :: splitOnCharAux sep [] rest
    else splitOnCharAux sep (c :: acc) rest

/-- Python `s.split(sep)` for a one-character separator. -/
def pySplitOnChar (sep : Char) (s : String) : List String :=
  splitOnCharAux sep [] s.data

/-- Python `s.lower()` (ASCII case, all the bot compares against). -/
def pyLower (s : String) : String :=
  String.mk (s.data.map Char.toLower)

/-- Python `int(s)` restricted to the plain-digit inputs the bot sees
    (no sign or inner whitespace handling). -/
def pyParseInt (s : String) : Option Nat :=
  if s.data ≠ [] ∧ s.data.all Char.isDigit then
    some (s.data.foldl (fun n c => n * 10 + (c.toNat - 48)) 0)
  else none

/-- PCManager.SAFE_COMMANDS (src/services/pc_manager.py:23). -/
def SAFE_COMMANDS : List String :=
  ["ls", "pwd", "whoami", "hostname", "uname",
   "df", "free", "uptime", "date", "ps",
   "ip", "cat", "echo", "lsblk", "lscpu"]

/-- SAFE_CMDS (src/handlers/pc_control.py:23): the allowlist the /cmd
    handler passes for non-admins. -/
def SAFE_CMDS : List String :=
  ["ls", "pwd", "whoami", "hostname", "uname", "df", "free", "uptime", "ps", "ip"]

/-- Result of PCManager.execute_command. -/
inductive CmdOutcome where
  /-- refused by the allowlist check; carries the offending base token. -/
  | refused (base : String)
  /-- subprocess ran to completion; flag is `returncode == 0`. -/
  | ran (returncodeZero : Bool)
  /-- subprocess hit the 30-second timeout. -/
  | timedOut
  deriving Repr, DecidableEq

/-- The `success` field of the returned dict. -/
def CmdOutcome.isSuccess : CmdOutcome → Bool
  | .refused _ => false
  | .ran rc => rc
  | .timedOut => false

/-- PCManager.execute_command: when `allowed_commands` is not None the
    first whitespace token must be in SAFE_COMMANDS or in
    `allowed_commands`, otherwise the command is refused before any
    subprocess is spawned; with `allowed_commands=None` (admins) no check
    runs and the string goes straight to the shell. -/
def execute_command (env : Env) (command : String)
    (allowed_commands : Option (List String)) : CmdOutcome × List Effect :=
  let runShell : CmdOutcome × List Effect :=
    if env.execTimesOut then (.timedOut, [Effect.shellExec command])
    else (.ran env.execReturncodeZero, [Effect.shellExec command])
  match allowed_commands with
  | some allowed =>
    let base := firstToken command
    if base ∉ SAFE_COMMANDS ∧ base ∉ allowed then (.refused base, [])
    else runShell
  | none => runShell

/-- The retry loop of WakeOnLanService.wake: `attempt` is the current
    index, `fuel` the remaining iterations.  Returns the final result and
    the number of send attempts actually made. -/
def wakeLoop (send : Nat → Bool) : Nat → Nat → Bool × Nat
  | _, 0 => (false, 0)
  | attempt, fuel + 1 =>
    if send attempt then (true, 1)
    else
      let r := wakeLoop send (attempt + 1) fuel
      (r.1, r.2 + 1)

/-- WakeOnLanService.wake (src/services/wol.py:83): try up to `retries`
    sends, stopping at the first success. -/
def wake (send : Nat → Bool) (retries : Nat) : Bool × Nat :=
  wakeLoop send 0 retries

/-- NotificationService.notify_user: one delivery attempt, no retry. -/
def notify_user (env : Env) (telegram_id : Nat) (msg : Msg) : List Effect × Bool :=
  ([Effect.sendMessage telegram_id msg], env.sendOk telegram_id)

/-- The per-recipient loop of NotificationService.notify_admins: each
    failure is swallowed by the `except` branch, so the iteration always
    continues; the count adds 1 per successful send. -/
def notifyAdminsLoop (env : Env) (msg : Msg) : List Nat → List Effect × Nat
  | [] => ([], 0)
  | admin_id :: rest =>
    let r := notifyAdminsLoop env msg rest
    (Effect.sendMessage admin_id msg :: r.1,
     (if env.sendOk admin_id then 1 else 0) + r.2)

/-- NotificationService.notify_admins: iterate the static admin id list. -/
def notify_admins (env : Env) (settings : Settings) (msg : Msg) : List Effect × Nat :=
  notifyAdminsLoop env msg settings.admin_ids

/-- The per-recipient loop of NotificationService.notify_all_users:
    recipients with `notifications_enabled=False` are skipped by the
    `continue`; a failed send is swallowed and the loop continues. -/
def notifyUsersLoop (env : Env) (msg : Msg) : List User → List Effect × Nat
  | [] => ([], 0)
  | u :: rest =>
    if u.notifications_enabled then
      let r := notifyUsersLoop env msg rest
      (Effect.sendMessage u.telegram_id msg :: r.1,
       (if env.sendOk u.telegram_id then 1 else 0) + r.2)
    else notifyUsersLoop env msg rest

/-- NotificationService.notify_all_users: load the authorized users from
    the store, deliver to the subscribed ones, return the success count. -/
def notify_all_users (env : Env) (st : Store) (msg : Msg) : List Effect × Nat :=
  notifyUsersLoop env msg (get_all_authorized_users st)

/-- NotificationService.notify_pc_status_change: gated by the
    `notify_on_pc_status` setting, then a plain all-users fan-out. -/
def notify_pc_status_change (env : Env) (settings : Settings) (st : Store)
    (is_online : Bool) : List Effect :=
  if settings.notify_on_pc_status then
    (notify_all_users env st (Msg.pcStatusChange is_online)).1
  else []

/-- `int(callback.data.split("_")[-1])` from the auth approve/reject
    callbacks: parse the last underscore-separated piece. -/
def parseCallbackId (data : String) : Option Nat :=
  pyParseInt ((pySplitOnChar '_' data).getLastD "")

/-- handlers/authorization.cmd_start: get-or-create the user, log the
    creation, greet according to `is_authorized`.  The creation log detail
    is `username or first_name`. -/
def cmd_start (env : Env) (st : Store) (tid : Nat)
    (username first_name last_name : Option String) : Store × List Effect :=
  match get_user_by_telegram_id st tid with
  | some user =>
    (st, [Effect.sendMessage tid
            (if user.is_authorized then Msg.welcomeBack else Msg.welcomeNew)])
  | none =>
    let r := create_user st tid username first_name last_name env.now
    let st2 := add_log_entry r.2 "user_created" (some r.1.id)
      (pyOrStr username first_name) none env.now
    (st2, [Effect.sendMessage tid
             (if r.1.is_authorized then Msg.welcomeBack else Msg.welcomeNew)])

/-- handlers/authorization.cmd_help: read-only; the text varies with the
    user's flags but no entity is touched. -/
def cmd_help (st : Store) (tid : Nat) : Store × List Effect :=
  (st, [Effect.sendMessage tid Msg.helpText])

/-- handlers/authorization.cmd_auth: admin-gated by the static admin id
    list; parses `/auth USER_ID approve|reject`, flips the target user's
    trust flags, logs `auth_<action>` (with the admin's Telegram id as the
    log's user_id, as the source does), and notifies the target. -/
def cmd_auth (env : Env) (settings : Settings) (st : Store) (fromTid : Nat)
    (text : String) : Store × List Effect :=
  if fromTid ∉ settings.admin_ids then
    (st, [Effect.sendMessage fromTid Msg.accessDenied])
  else
    let args := pySplit text
    if args.length < 3 then (st, [Effect.sendMessage fromTid Msg.usageAuth])
    else
      match pyParseInt (args.getD 1 "") with
      | none => (st, [Effect.sendMessage fromTid Msg.invalidUserId])
      | some user_id =>
        let action := pyLower (args.getD 2 "")
        if action ≠ "approve" ∧ action ≠ "reject" then
          (st, [Effect.sendMessage fromTid Msg.invalidAction])
        else
          match get_user_by_telegram_id st user_id with
          | none => (st, [Effect.sendMessage fromTid (Msg.userNotFound user_id)])
          | some user =>
            let user2 := { user with
              is_authorized := action == "approve"
              is_admin := action == "approve" && settings.admin_ids.contains user_id }
            let st1 := update_user st user2
            let st2 := add_log_entry st1 ("auth_" ++ action) (some fromTid)
              (some action) none env.now
            if action == "approve" then
              (st2, (notify_user env user_id Msg.authApprovedNote).1 ++
                    [Effect.sendMessage fromTid (Msg.userApproved user_id)])
            else
              (st2, (notify_user env user_id Msg.authRejectedNote).1 ++
                    [Effect.sendMessage fromTid (Msg.userRejected user_id)])

/-- handlers/authorization.callback_request_auth: an already-authorized
    user only gets an alert; otherwise a pending AuthRequest is created,
    logged, and the admins are notified. -/
def callback_request_auth (env : Env) (settings : Settings) (st : Store)
    (tid : Nat) (username : Option String) : Store × List Effect :=
  match get_user_by_telegram_id st tid with
  | some user =>
    if user.is_authorized then (st, [Effect.answerCallback Msg.alreadyAuthorized])
    else
      let r := create_auth_request st user.id env.now
      let st2 := add_log_entry r.2 "auth_request" (some user.id) username none env.now
      (st2, (notify_admins env settings (Msg.authRequestNote tid)).1 ++
            [Effect.sendMessage tid Msg.requestSent, Effect.answerCallbackPlain])
  | none =>
    (st, [Effect.sendMessage tid Msg.useStartFirst, Effect.answerCallbackPlain])

/-- handlers/authorization.callback_auth_approve: admin-gated; parses the
    target id from the callback token, sets `is_authorized=True` and
    `is_admin` iff the target is in the static admin list, logs
    `auth_approved`, notifies the target.  The pending AuthRequest is
    never touched (no call to update_auth_request exists in the source). -/
def callback_auth_approve (env : Env) (settings : Settings) (st : Store)
    (fromTid : Nat) (data : String) : Store × List Effect :=
  if fromTid ∉ settings.admin_ids then (st, [Effect.answerCallback Msg.accessDenied])
  else
    match parseCallbackId data with
    | none => (st, [Effect.answerCallback Msg.invalidUserId])
    | some user_id =>
      match get_user_by_telegram_id st user_id with
      | none => (st, [Effect.answerCallback (Msg.userNotFound user_id)])
      | some user =>
        let user2 := { user with
          is_authorized := true
          is_admin := settings.admin_ids.contains user_id }
        let st1 := update_user st user2
        let st2 := add_log_entry st1 "auth_approved" (some fromTid)
          (some (toString user_id)) none env.now
        (st2, (notify_user env user_id Msg.authApprovedNote).1 ++
              [Effect.editMessage (Msg.userApproved user_id), Effect.answerCallbackPlain])

/-- handlers/authorization.callback_auth_reject: admin-gated; sets the
    target's `is_authorized=False` (the `is_admin` flag is left as is),
    logs `auth_rejected`, notifies the target.  As with approval, the
    pending AuthRequest row is never touched. -/
def callback_auth_reject (env : Env) (settings : Settings) (st : Store)
    (fromTid : Nat) (data : String) : Store × List Effect :=
  if fromTid ∉ settings.admin_ids then (st, [Effect.answerCallback Msg.accessDenied])
  else
    match parseCallbackId data with
    | none => (st, [Effect.answerCallback Msg.invalidUserId])
    | some user_id =>
      match get_user_by_telegram_id st user_id with
      | none => (st, [Effect.answerCallback (Msg.userNotFound user_id)])
      | some user =>
        let user2 := { user with is_authorized := false }
        let st1 := update_user st user2
        let st2 := add_log_entry st1 "auth_rejected" (some fromTid)
          (some (toString user_id)) none env.now
        (st2, (notify_user env user_id Msg.authRejectedNote).1 ++
              [Effect.editMessage (Msg.userRejected user_id), Effect.answerCallbackPlain])

/-- handlers/pc_control.cmd_reboot: the initiating step only sends the
    confirm/cancel prompt — no PCManager call, no audit entry. -/
def cmd_reboot (st : Store) (tid : Nat) : Store × List Effect :=
  match get_user_by_telegram_id st tid with
  | none => (st, [Effect.sendMessage tid Msg.accessDenied])
  | some user =>
    if ¬ user.is_authorized then (st, [Effect.sendMessage tid Msg.accessDenied])
    else (st, [Effect.sendMessage tid Msg.confirmRebootPrompt])

/-- handlers/pc_control.cmd_shutdown: same two-step shape as /reboot. -/
def cmd_shutdown (st : Store) (tid : Nat) : Store × List Effect :=
  match get_user_by_telegram_id st tid with
  | none => (st, [Effect.sendMessage tid Msg.accessDenied])
  | some user =>
    if ¬ user.is_authorized then (st, [Effect.sendMessage tid Msg.accessDenied])
    else (st, [Effect.sendMessage tid Msg.confirmShutdownPrompt])

/-- handlers/pc_control.callback_confirm: the confirm step.  After the
    user lookup the source runs `pc = PCManager()` and then
    `notif = NotificationService()`; the latter omits the required `bot`
    argument of `NotificationService.__init__(self, bot)`, so the handler
    raises TypeError there — before `pc.reboot` / `pc.shutdown` and before
    the `<action>_initiated` audit entry. -/
def callback_confirm (st : Store) (tid : Nat) (data : String) :
    Except PyErr (Store × List Effect) :=
  let _action := data.replace "confirm_" ""
  match get_user_by_telegram_id st tid with
  | none => Except.ok (st, [Effect.answerCallback Msg.accessDenied])
  | some _user => Except.error PyErr.notificationServiceMissingBot

/-- handlers/pc_control.cmd_cancel: `shutdown -c` is always attempted;
    the `shutdown_cancelled` audit entry is written only on success. -/
def cmd_cancel (env : Env) (st : Store) (tid : Nat) : Store × List Effect :=
  match get_user_by_telegram_id st tid with
  | none => (st, [Effect.sendMessage tid Msg.accessDenied])
  | some user =>
    if ¬ user.is_authorized then (st, [Effect.sendMessage tid Msg.accessDenied])
    else
      let ok := env.cancelOk
      let effs := [Effect.pcCancelCall,
                   Effect.sendMessage tid (if ok then Msg.cancelDone else Msg.nothingToCancel)]
      if ok then
        (add_log_entry st "shutdown_cancelled" (some user.id) none none env.now, effs)
      else (st, effs)

/-- handlers/pc_control.cmd_command (/cmd): strip the leading "/cmd",
    choose the allowlist (None for admins, SAFE_CMDS otherwise), call
    PCManager.execute_command, and then — unconditionally, refused or not
    — append a `command_executed` audit entry. -/
def cmd_command (env : Env) (st : Store) (tid : Nat) (text : String) :
    Store × List Effect :=
  match get_user_by_telegram_id st tid with
  | none => (st, [Effect.sendMessage tid Msg.accessDenied])
  | some user =>
    if ¬ user.is_authorized then (st, [Effect.sendMessage tid Msg.accessDenied])
    else
      let command := pyStrip (replaceFirst text "/cmd")
      if command = "" then (st, [Effect.sendMessage tid Msg.usageCmd])
      else
        let allowed := if user.is_admin then none else some SAFE_CMDS
        let r := execute_command env command allowed
        let st2 := add_log_entry st "command_executed" (some user.id)
          (some command) none env.now
        (st2, Effect.sendMessage tid (Msg.executing command) :: r.2 ++
              [Effect.sendMessage tid (Msg.cmdResult r.1.isSuccess)])

/-- handlers/pc_control.cmd_screenshot: log `screenshot_taken` only when
    a capture tool produced data. -/
def cmd_screenshot (env : Env) (st : Store) (tid : Nat) : Store × List Effect :=
  match get_user_by_telegram_id st tid with
  | none => (st, [Effect.sendMessage tid Msg.accessDenied])
  | some user =>
    if ¬ user.is_authorized then (st, [Effect.sendMessage tid Msg.accessDenied])
    else if env.screenshotOk then
      (add_log_entry st "screenshot_taken" (some user.id) none none env.now,
       [Effect.sendMessage tid Msg.screenshotWait, Effect.sendPhoto tid])
    else
      (st, [Effect.sendMessage tid Msg.screenshotWait,
            Effect.sendMessage tid Msg.screenshotFail])

/-- handlers/pc_control.cmd_processes: read-only listing. -/
def cmd_processes (env : Env) (st : Store) (tid : Nat) : Store × List Effect :=
  match get_user_by_telegram_id st tid with
  | none => (st, [Effect.sendMessage tid Msg.accessDenied])
  | some user =>
    if ¬ user.is_authorized then (st, [Effect.sendMessage tid Msg.accessDenied])
    else if env.processesNonempty then (st, [Effect.sendMessage tid Msg.processesReport])
    else (st, [Effect.sendMessage tid Msg.processesFail])

/-- handlers/wol.cmd_status (this registration wins over the pc_control
    /status handler because wol_router is included first in
    bot/main.create_bot): liveness probe, PCStatus update, audit entry. -/
def cmd_status (env : Env) (settings : Settings) (st : Store) (tid : Nat) :
    Store × List Effect :=
  match get_user_by_telegram_id st tid with
  | none => (st, [Effect.sendMessage tid Msg.accessDenied])
  | some user =>
    if ¬ user.is_authorized then (st, [Effect.sendMessage tid Msg.accessDenied])
    else
      let is_online := env.checkOnline
      let r := update_pc_status st is_online (some settings.pc_ip_address) none env.now
      let st2 := add_log_entry r.2 "status_check" (some user.id)
        (some (if is_online then "online" else "offline")) none env.now
      (st2, [Effect.sendMessage tid Msg.statusChecking,
             Effect.sendMessage tid (Msg.statusReport is_online)])

/-- handlers/wol.cmd_wake: wake with retries=3; on send success log
    `wake_sent`, stamp the wake attempt, verify liveness (30s bounded),
    update PCStatus and possibly fan out a status-change notification.
    An invalid configured MAC raises in the WakeOnLanService constructor
    and is caught by the handler's `except`. -/
def cmd_wake (env : Env) (settings : Settings) (st : Store) (tid : Nat) :
    Store × List Effect :=
  match get_user_by_telegram_id st tid with
  | none => (st, [Effect.sendMessage tid Msg.accessDenied])
  | some user =>
    if ¬ user.is_authorized then (st, [Effect.sendMessage tid Msg.accessDenied])
    else if ¬ env.macValid then
      (st, [Effect.sendMessage tid Msg.wakeSending, Effect.sendMessage tid Msg.wakeError])
    else
      let w := wake env.wolSend 3
      let attemptEffs := List.replicate w.2 Effect.magicPacketSend
      if w.1 then
        let st1 := update_last_wake_attempt st env.now
        let st2 := add_log_entry st1 "wake_sent" (some user.id)
          (some "Wake-on-LAN packet sent") none env.now
        let is_online := env.verifyWake
        let r := update_pc_status st2 is_online (some settings.pc_ip_address) none env.now
        if is_online then
          (r.2, Effect.sendMessage tid Msg.wakeSending :: attemptEffs ++
                [Effect.sendMessage tid Msg.wakeSent, Effect.sendMessage tid Msg.wakeOnline] ++
                notify_pc_status_change env settings r.2 true)
        else
          (r.2, Effect.sendMessage tid Msg.wakeSending :: attemptEffs ++
                [Effect.sendMessage tid Msg.wakeSent,
                 Effect.sendMessage tid Msg.wakeNotResponding])
      else
        (st, Effect.sendMessage tid Msg.wakeSending :: attemptEffs ++
             [Effect.sendMessage tid Msg.wakeFailed])

/-- handlers/notifications.cmd_notify: flip `notifications_enabled`,
    persist, log `notifications_enabled` / `notifications_disabled`. -/
def cmd_notify (env : Env) (st : Store) (tid : Nat) : Store × List Effect :=
  match get_user_by_telegram_id st tid with
  | none => (st, [Effect.sendMessage tid Msg.accessDenied])
  | some user =>
    if ¬ user.is_authorized then (st, [Effect.sendMessage tid Msg.accessDenied])
    else
      let user2 := { user with notifications_enabled := ! user.notifications_enabled }
      let st1 := update_user st user2
      let st2 := add_log_entry st1
        ("notifications_" ++ (if user2.notifications_enabled then "enabled" else "disabled"))
        (some user.id) none none env.now
      (st2, [Effect.sendMessage tid (Msg.notifyToggled user2.notifications_enabled)])

/-- handlers/notifications.cmd_logs: admin-gated (static list only),
    read-only view of the 20 most recent audit entries. -/
def cmd_logs (settings : Settings) (st : Store) (tid : Nat) : Store × List Effect :=
  if tid ∉ settings.admin_ids then (st, [Effect.sendMessage tid Msg.accessDenied])
  else if (get_log_entries st 20).isEmpty then (st, [Effect.sendMessage tid Msg.noLogs])
  else (st, [Effect.sendMessage tid Msg.logsReport])

/-- handlers/dota.cmd_dota: status lookup then a `dota_status_check`
    audit entry (written on every authorized run). -/
def cmd_dota (env : Env) (st : Store) (tid : Nat) : Store × List Effect :=
  match get_user_by_telegram_id st tid with
  | none => (st, [Effect.sendMessage tid Msg.accessDenied])
  | some user =>
    if ¬ user.is_authorized then (st, [Effect.sendMessage tid Msg.accessDenied])
    else
      (add_log_entry st "dota_status_check" (some user.id) none none env.now,
       [Effect.sendMessage tid Msg.dotaLoading, Effect.sendMessage tid Msg.dotaReport])

/-- handlers/dota.cmd_dota_history: no data → early return with no audit
    entry; otherwise report and log `dota_history_check`. -/
def cmd_dota_history (env : Env) (st : Store) (tid : Nat) : Store × List Effect :=
  match get_user_by_telegram_id st tid with
  | none => (st, [Effect.sendMessage tid Msg.accessDenied])
  | some user =>
    if ¬ user.is_authorized then (st, [Effect.sendMessage tid Msg.accessDenied])
    else if ¬ env.dotaHistoryNonempty then
      (st, [Effect.sendMessage tid Msg.dotaLoading, Effect.sendMessage tid Msg.dotaNoData])
    else
      (add_log_entry st "dota_history_check" (some user.id) none none env.now,
       [Effect.sendMessage tid Msg.dotaLoading, Effect.sendMessage tid Msg.dotaReport])

/-- handlers/dota.cmd_dota_live: live match lookup; log `dota_live_check`
    only when a live match is found. -/
def cmd_dota_live (env : Env) (st : Store) (tid : Nat) : Store × List Effect :=
  match get_user_by_telegram_id st tid with
  | none => (st, [Effect.sendMessage tid Msg.accessDenied])
  | some user =>
    if ¬ user.is_authorized then (st, [Effect.sendMessage tid Msg.accessDenied])
    else if ¬ env.dotaLiveFound then
      (st, [Effect.sendMessage tid Msg.dotaLoading,
            Effect.sendMessage tid Msg.dotaLiveNotFound])
    else
      (add_log_entry st "dota_live_check" (some user.id) none none env.now,
       [Effect.sendMessage tid Msg.dotaLoading, Effect.sendMessage tid Msg.dotaReport])

/-- handlers/dota.cmd_dota_buffs: parse an explicit match id or fall back
    to the most recent match; log `dota_buffs_check` with the match id
    when buff data is available. -/
def cmd_dota_buffs (env : Env) (st : Store) (tid : Nat) (text : String) :
    Store × List Effect :=
  match get_user_by_telegram_id st tid with
  | none => (st, [Effect.sendMessage tid Msg.accessDenied])
  | some user =>
    if ¬ user.is_authorized then (st, [Effect.sendMessage tid Msg.accessDenied])
    else
      let parts := pySplit text
      let matchId? :=
        if parts.length < 2 then env.dotaRecentMatch
        else pyParseInt (parts.getD 1 "")
      match matchId? with
      | none =>
        if parts.length < 2 then (st, [Effect.sendMessage tid Msg.dotaUsageBuffs])
        else (st, [Effect.sendMessage tid Msg.dotaInvalidMatchId])
      | some match_id =>
        if ¬ env.dotaBuffsFound then
          (st, [Effect.sendMessage tid Msg.dotaLoading,
                Effect.sendMessage tid Msg.dotaBuffsUnavailable])
        else
          (add_log_entry st "dota_buffs_check" (some user.id)
             (some (toString match_id)) none env.now,
           [Effect.sendMessage tid Msg.dotaLoading,
            Effect.sendMessage tid (Msg.dotaBuffsReport match_id)])

/-- An inbound command event (sender identity plus raw text). -/
structure MsgEvent where
  from_id : Nat
  text : String
  username : Option String
  first_name : Option String
  last_name : Option String

/-- The slash commands routed by the dispatcher (bot/main.create_bot
    router registration). -/
inductive Cmd where
  | start | help | auth | wake | status | screenshot | reboot | shutdown
  | cancel | cmd | processes | notify | logs | dota | dotahistory
  | dotalive | dotabuffs
  deriving Repr, DecidableEq

/-- Minimum trust level each command requires (spec §4.1 command gating):
    0 = no record needed, 1 = authorized, 2 = admin. -/
def requiredLevel : Cmd → Nat
  | .start | .help => 0
  | .auth | .logs => 2
  | _ => 1

/-- The derived trust level of spec §4.1: membership of the static admin
    id list is an unconditional admin override; otherwise the stored
    flags decide (`Admin` needs both flags, `Authorized` needs
    `is_authorized`, anything else is at the bottom). -/
def trustLevel (st : Store) (admin_ids : List Nat) (telegram_id : Nat) : Nat :=
  if telegram_id ∈ admin_ids then 2
  else
    match get_user_by_telegram_id st telegram_id with
    | none => 0
    | some u =>
      if u.is_authorized && u.is_admin then 2
      else if u.is_authorized then 1 else 0

/-- The command dispatcher: route an inbound command event to the handler
    registered for it. -/
def dispatch (env : Env) (settings : Settings) (st : Store) (c : Cmd)
    (ev : MsgEvent) : Store × List Effect :=
  match c with
  | .start => cmd_start env st ev.from_id ev.username ev.first_name ev.last_name
  | .help => cmd_help st ev.from_id
  | .auth => cmd_auth env settings st ev.from_id ev.text
  | .wake => cmd_wake env settings st ev.from_id
  | .status => cmd_status env settings st ev.from_id
  | .screenshot => cmd_screenshot env st ev.from_id
  | .reboot => cmd_reboot st ev.from_id
  | .shutdown => cmd_shutdown st ev.from_id
  | .cancel => cmd_cancel env st ev.from_id
  | .cmd => cmd_command env st ev.from_id ev.text
  | .processes => cmd_processes env st ev.from_id
  | .notify => cmd_notify env st ev.from_id
  | .logs => cmd_logs settings st ev.from_id
  | .dota => cmd_dota env st ev.from_id
  | .dotahistory => cmd_dota_history env st ev.from_id
  | .dotalive => cmd_dota_live env st ev.from_id
  | .dotabuffs => cmd_dota_buffs env st ev.from_id ev.text

/-- Refusal discriminator for execute_command results. -/
def CmdOutcome.isRefused : CmdOutcome → Bool
  | .refused _ => true
  | _ => false

/-! ### Concrete fixtures used by closed statements -/

/-- A benign environment: every external call succeeds at time 0. -/
def env0 : Env :=
  { now := 0
    sendOk := fun _ => true
    checkOnline := true
    screenshotOk := true
    cancelOk := true
    rebootOk := true
    shutdownOk := true
    execReturncodeZero := true
    execTimesOut := false
    processesNonempty := true
    macValid := true
    wolSend := fun _ => true
    verifyWake := true
    dotaHistoryNonempty := true
    dotaLiveFound := true
    dotaRecentMatch := some 1
    dotaBuffsFound := true }

/-- A deployment with a single static admin id 7. -/
def settings0 : Settings :=
  { admin_ids := [7], pc_ip_address := "192.168.0.2", notify_on_pc_status := true }

/-- A user row with the given flags (no names, created at time 0). -/
def mkUser (id telegram_id : Nat) (auth admin notif : Bool) : User :=
  { id := id, telegram_id := telegram_id, username := none, first_name := none,
    last_name := none, is_authorized := auth, is_admin := admin,
    notifications_enabled := notif, created_at := 0 }

/-- The empty store (fresh database). -/
def emptyStore : Store :=
  { users := [], auth_requests := [], log_entries := [], pc_status := none,
    dota_matches := [] }

/-! ### Claim proofs -/

/-- The wake retry loop, started at `attempt` with `fuel` iterations left,
    when every remaining attempt fails. -/
theorem wakeLoop_all_fail (send : Nat → Bool) :
    ∀ (fuel attempt : Nat), (∀ i < fuel, send (attempt + i) = false) →
      wakeLoop send attempt fuel = (false, fuel) := by
  intro fuel
  induction fuel with
  | zero => intro attempt _; rfl
  | succ f ih =>
    intro attempt h
    have h0 : send attempt = false := by simpa using h 0 (Nat.succ_pos f)
    have hrec : wakeLoop send (attempt + 1) f = (false, f) := by
      apply ih
      intro i hi
      have := h (i + 1) (Nat.succ_lt_succ hi)
      simpa [Nat.add_comm, Nat.add_assoc, Nat.add_left_comm] using this
    simp [wakeLoop, h0, hrec]

/-- The wake retry loop stops at the first successful attempt. -/
theorem wakeLoop_first_success (send : Nat → Bool) :
    ∀ (k fuel attempt : Nat), k < fuel → send (attempt + k) = true →
      (∀ j < k, send (attempt + j) = false) →
      wakeLoop send attempt fuel = (true, k + 1) := by
  intro k
  induction k with
  | zero =>
    intro fuel attempt hk hs _
    match fuel, hk with
    | f + 1, _ =>
      have h0 : send attempt = true := by simpa using hs
      simp [wakeLoop, h0]
  | succ k ih =>
    intro fuel attempt hk hs hmin
    match fuel, hk with
    | f + 1, hk =>
      have h0 : send attempt = false := by simpa using hmin 0 (Nat.succ_pos k)
      have hrec : wakeLoop send (attempt + 1) f = (true, k + 1) := by
        apply ih
        · exact Nat.lt_of_succ_lt_succ hk
        · simpa [Nat.add_comm, Nat.add_assoc, Nat.add_left_comm] using hs
        · intro j hj
          have := hmin (j + 1) (Nat.succ_lt_succ hj)
          simpa [Nat.add_comm, Nat.add_assoc, Nat.add_left_comm] using this
      simp [wakeLoop, h0, hrec]

/-- C7: `wake` with retries=3 where the first two magic-packet sends fail
    and the third succeeds returns true after exactly 3 attempts; in
    general it stops at the first successful send (k failures then one
    success yield k+1 attempts and true) and returns false only after all
    `retries` attempts have been made and failed. -/
theorem wake_retry_spec :
    wake (fun i => decide (i = 2)) 3 = (true, 3) ∧
    (∀ (send : Nat → Bool) (retries k : Nat), k < retries → send k = true →
      (∀ j < k, send j = false) → wake send retries = (true, k + 1)) ∧
    (∀ (send : Nat → Bool) (retries : Nat), (∀ i < retries, send i = false) →
      wake send retries = (false, retries)) := by
  refine ⟨by decide, ?_, ?_⟩
  · intro send retries k hk hs hmin
    have := wakeLoop_first_success send k retries 0 hk (by simpa using hs)
      (by intro j hj; simpa using hmin j hj)
    simpa [wake] using this
  · intro send retries h
    have := wakeLoop_all_fail send retries 0 (by intro i hi; simpa using h i hi)
    simpa [wake] using this

/-- Witness for C7: the two general conjuncts applied at concrete inputs. -/
theorem wake_retry_spec_witness :
    wake (fun i => decide (i = 2)) 3 = (true, 3) ∧
    wake (fun _ => false) 2 = (false, 2) :=
  ⟨wake_retry_spec.1, wake_retry_spec.2.2 (fun _ => false) 2 (by decide)⟩

/-- C8: with an allowlist supplied (non-admins) execute_command refuses
    exactly when the first whitespace token is outside
    SAFE_COMMANDS ∪ allowed_commands, spawning no subprocess on refusal
    and exactly one otherwise; the decision depends only on that first
    token; with allowed_commands=None (admins) the string always goes to
    the shell with no check. -/
theorem execute_command_allowlist_spec :
    (∀ (env : Env) (command : String) (l : List String),
      ((execute_command env command (some l)).1 = .refused (firstToken command) ↔
        firstToken command ∉ SAFE_COMMANDS ∧ firstToken command ∉ l)) ∧
    (∀ (env : Env) (command : String) (l : List String),
      (execute_command env command (some l)).2 =
        if firstToken command ∉ SAFE_COMMANDS ∧ firstToken command ∉ l then []
        else [Effect.shellExec command]) ∧
    (∀ (env : Env) (c1 c2 : String) (l : List String), firstToken c1 = firstToken c2 →
      (execute_command env c1 (some l)).1.isRefused =
      (execute_command env c2 (some l)).1.isRefused) ∧
    (∀ (env : Env) (command : String),
      (execute_command env command none).2 = [Effect.shellExec command]) := by
  have hr : ∀ (env : Env) (c : String) (l : List String),
      (execute_command env c (some l)).1.isRefused =
        decide (firstToken c ∉ SAFE_COMMANDS ∧ firstToken c ∉ l) := by
    intro env c l
    by_cases h : firstToken c ∉ SAFE_COMMANDS ∧ firstToken c ∉ l
    · simp [execute_command, h, CmdOutcome.isRefused]
    · by_cases ht : env.execTimesOut <;>
        simp [execute_command, h, ht, CmdOutcome.isRefused]
  refine ⟨?_, ?_, ?_, ?_⟩
  · intro env command l
    by_cases h : firstToken command ∉ SAFE_COMMANDS ∧ firstToken command ∉ l
    · simp [execute_command, h]
    · by_cases ht : env.execTimesOut <;> simp [execute_command, h, ht]
  · intro env command l
    by_cases h : firstToken command ∉ SAFE_COMMANDS ∧ firstToken command ∉ l
    · simp [execute_command, h]
    · by_cases ht : env.execTimesOut <;> simp [execute_command, h, ht]
  · intro env c1 c2 l htok
    rw [hr, hr, htok]
  · intro env command
    by_cases ht : env.execTimesOut <;> simp [execute_command, ht]

/-- Witness for C8: `ls -la` and `ls` have the same first token and the
    same (non-refused) decision; `rm -rf /` is refused with no shell
    effect while an admin call always reaches the shell. -/
theorem execute_command_allowlist_spec_witness :
    (execute_command env0 "ls -la" (some SAFE_CMDS)).1.isRefused =
      (execute_command env0 "ls" (some SAFE_CMDS)).1.isRefused ∧
    (execute_command env0 "rm -rf /" (some SAFE_CMDS)).2 = [] ∧
    (execute_command env0 "rm -rf /" none).2 = [Effect.shellExec "rm -rf /"] :=
  ⟨execute_command_allowlist_spec.2.2.1 env0 "ls -la" "ls" SAFE_CMDS (by decide),
   by rw [execute_command_allowlist_spec.2.1 env0 "rm -rf /" SAFE_CMDS]
      exact if_pos (by decide),
   execute_command_allowlist_spec.2.2.2 env0 "rm -rf /"⟩

/-- C10: update_pc_status never erases the stored address or hostname —
    passing None keeps the previous value — while `is_online` and
    `last_check` are overwritten on every call; the updated singleton row
    is written back. -/
theorem update_pc_status_frame :
    ∀ (st : Store) (b : Bool) (now : Nat) (s : PCStatus)
      (ip hn : Option String), st.pc_status = some s →
      ((update_pc_status st b none hn now).1.ip_address = s.ip_address ∧
       (update_pc_status st b ip none now).1.hostname = s.hostname ∧
       (update_pc_status st b ip hn now).1.is_online = b ∧
       (update_pc_status st b ip hn now).1.last_check = now ∧
       (update_pc_status st b ip hn now).2.pc_status =
         some (update_pc_status st b ip hn now).1) := by
  intro st b now s ip hn h
  refine ⟨?_, ?_, ?_, ?_, ?_⟩ <;> simp [update_pc_status, pyOrStr, h]

/-- A populated PCStatus row used by the C10 witness. -/
def pcs0 : PCStatus :=
  { is_online := false, ip_address := some "10.0.0.5", hostname := some "arch",
    last_check := 3, last_wake_attempt := none }

/-- A store holding that row. -/
def stC10 : Store :=
  { emptyStore with pc_status := some pcs0 }

/-- Witness for C10: a store whose PCStatus row holds an address and a
    hostname keeps both across an update that passes None for them. -/
theorem update_pc_status_frame_witness :
    (update_pc_status stC10 true none none 9).1.ip_address = some "10.0.0.5" ∧
    (update_pc_status stC10 true none none 9).1.is_online = true :=
  ⟨(update_pc_status_frame stC10 true 9 pcs0 none none rfl).1,
   (update_pc_status_frame stC10 true 9 pcs0 none none rfl).2.2.1⟩

/-- Unrolling of the notify_all_users recipient loop: the attempts are
    exactly the `notifications_enabled` recipients in order, and the
    reported count is the number of those whose send succeeded. -/
theorem notifyUsersLoop_characterization (env : Env) (msg : Msg) (l : List User) :
    notifyUsersLoop env msg l =
      ((l.filter (fun u => u.notifications_enabled)).map
         (fun u => Effect.sendMessage u.telegram_id msg),
       ((l.filter (fun u => u.notifications_enabled)).filter
          (fun u => env.sendOk u.telegram_id)).length) := by
  induction l with
  | nil => rfl
  | cons u rest ih =>
    by_cases hn : u.notifications_enabled
    · by_cases hs : env.sendOk u.telegram_id <;>
        simp [notifyUsersLoop, hn, hs, ih, Nat.add_comm]
    · simp [notifyUsersLoop, hn, ih]

/-- Three authorized, subscribed users with Telegram ids 1, 2, 3. -/
def stC5 : Store :=
  { emptyStore with
    users := [mkUser 1 1 true false true, mkUser 2 2 true false true,
              mkUser 3 3 true false true] }

/-- A transport that fails exactly for chat id 2. -/
def envC5 : Env :=
  { env0 with sendOk := fun id => id != 2 }

/-- C5: the all-subscribed fan-out attempts delivery to exactly the users
    with is_authorized=true and notifications_enabled=true and to no one
    else; the attempt list is independent of transport outcomes (one
    failure never suppresses later attempts); the returned count is the
    number of successful deliveries — with 3 subscribed users and the 2nd
    failing: 3 attempts, count 2. -/
theorem notify_all_subscribed_spec :
    (∀ (env : Env) (st : Store) (msg : Msg),
      (notify_all_users env st msg).1 =
        ((st.users.filter (fun u => u.is_authorized)).filter
           (fun u => u.notifications_enabled)).map
          (fun u => Effect.sendMessage u.telegram_id msg) ∧
      (notify_all_users env st msg).2 =
        (((st.users.filter (fun u => u.is_authorized)).filter
            (fun u => u.notifications_enabled)).filter
           (fun u => env.sendOk u.telegram_id)).length) ∧
    (∀ (env envB : Env) (st : Store) (msg : Msg),
      (notify_all_users env st msg).1 = (notify_all_users envB st msg).1) ∧
    notify_all_users envC5 stC5 Msg.dotaReport =
      ([Effect.sendMessage 1 Msg.dotaReport, Effect.sendMessage 2 Msg.dotaReport,
        Effect.sendMessage 3 Msg.dotaReport], 2) := by
  refine ⟨?_, ?_, ?_⟩
  · intro env st msg
    rw [notify_all_users, notifyUsersLoop_characterization]
    exact ⟨rfl, rfl⟩
  · intro env envB st msg
    rw [notify_all_users, notify_all_users, notifyUsersLoop_characterization,
        notifyUsersLoop_characterization]
  · rfl

/-- A store holding one authorized non-admin user (id 1, Telegram 100). -/
def stC3 : Store :=
  { emptyStore with users := [mkUser 1 100 true false true] }

/-- C9: a request-access callback from an already-authorized user only
    answers the "already authorized" alert: the store is returned
    unchanged (no AuthRequest, no audit entry) and no admin notification
    or other send is emitted. -/
theorem request_auth_already_authorized_frame :
    ∀ (env : Env) (settings : Settings) (st : Store) (tid : Nat)
      (uname : Option String) (user : User),
      get_user_by_telegram_id st tid = some user → user.is_authorized = true →
      callback_request_auth env settings st tid uname =
        (st, [Effect.answerCallback Msg.alreadyAuthorized]) := by
  intro env settings st tid uname user h hauth
  simp [callback_request_auth, h, hauth]

/-- Witness for C9 at a concrete authorized user. -/
theorem request_auth_already_authorized_frame_witness :
    callback_request_auth env0 settings0 stC3 100 none =
      (stC3, [Effect.answerCallback Msg.alreadyAuthorized]) :=
  request_auth_already_authorized_frame env0 settings0 stC3 100 none
    (mkUser 1 100 true false true) (by decide) rfl

/-- C1 (code bug evidence): for an authorized user the initiating /reboot
    and /shutdown commands send only the confirm prompt — the store is
    unchanged and neither PCManager.reboot nor PCManager.shutdown is
    called — while the confirm callback raises TypeError at
    `NotificationService()` (missing required `bot`) before reaching the
    scheduling call or the `<action>_initiated` audit entry. -/
theorem reboot_confirm_codebug :
    ∀ (st : Store) (tid : Nat) (user : User),
      get_user_by_telegram_id st tid = some user → user.is_authorized = true →
      (cmd_reboot st tid = (st, [Effect.sendMessage tid Msg.confirmRebootPrompt]) ∧
       cmd_shutdown st tid = (st, [Effect.sendMessage tid Msg.confirmShutdownPrompt]) ∧
       callback_confirm st tid "confirm_reboot" =
         Except.error PyErr.notificationServiceMissingBot ∧
       callback_confirm st tid "confirm_shutdown" =
         Except.error PyErr.notificationServiceMissingBot) := by
  intro st tid user h hauth
  refine ⟨?_, ?_, ?_, ?_⟩ <;>
    simp [cmd_reboot, cmd_shutdown, callback_confirm, h, hauth]

/-- Witness for C1 at a concrete authorized user. -/
theorem reboot_confirm_codebug_witness :
    cmd_reboot stC3 100 = (stC3, [Effect.sendMessage 100 Msg.confirmRebootPrompt]) ∧
    callback_confirm stC3 100 "confirm_reboot" =
      Except.error PyErr.notificationServiceMissingBot :=
  ⟨(reboot_confirm_codebug stC3 100 (mkUser 1 100 true false true) (by decide) rfl).1,
   (reboot_confirm_codebug stC3 100 (mkUser 1 100 true false true) (by decide) rfl).2.2.1⟩

/-- Counterexample to C3: an authorized non-admin issuing
    `/cmd rm -rf /` is refused with no shell effect, yet a
    `command_executed` audit entry IS appended to the store (the handler
    logs unconditionally after execute_command returns). -/
theorem cmd_refusal_audit_counterexample :
    (cmd_command env0 stC3 100 "/cmd rm -rf /").1.log_entries =
      [{ user_id := some 1, action := "command_executed",
         details := some "rm -rf /", ip_address := none, created_at := 0 }] ∧
    (cmd_command env0 stC3 100 "/cmd rm -rf /").2 =
      [Effect.sendMessage 100 (Msg.executing "rm -rf /"),
       Effect.sendMessage 100 (Msg.cmdResult false)] :=
  ⟨rfl, rfl⟩

/-- Every entry of the handler allowlist is also in the service-level
    safe set, so a base token outside SAFE_COMMANDS is outside both. -/
theorem SAFE_CMDS_subset_SAFE_COMMANDS : ∀ s ∈ SAFE_CMDS, s ∈ SAFE_COMMANDS := by
  decide

/-- C3 as amended: for an authorized non-admin whose /cmd base token is
    outside the safe allowlist, execution is refused and no shell
    subprocess is spawned, but a `command_executed` audit entry is still
    written (the claim's "no audit entry" part fails on the code). -/
theorem cmd_refusal_amended :
    ∀ (env : Env) (st : Store) (tid : Nat) (text command : String) (user : User),
      get_user_by_telegram_id st tid = some user → user.is_authorized = true →
      user.is_admin = false → pyStrip (replaceFirst text "/cmd") = command →
      command ≠ "" → firstToken command ∉ SAFE_COMMANDS →
      cmd_command env st tid text =
        (add_log_entry st "command_executed" (some user.id) (some command) none env.now,
         [Effect.sendMessage tid (Msg.executing command),
          Effect.sendMessage tid (Msg.cmdResult false)]) := by
  intro env st tid text command user h hauth hadmin hcmd hne hbase
  have hnotallowed : firstToken command ∉ SAFE_CMDS :=
    fun hin => hbase (SAFE_CMDS_subset_SAFE_COMMANDS _ hin)
  simp [cmd_command, h, hauth, hadmin, hcmd, hne, execute_command, hbase,
        hnotallowed, CmdOutcome.isSuccess]

/-- Witness for the amended C3 at the concrete input `/cmd rm -rf /`. -/
theorem cmd_refusal_amended_witness :
    cmd_command env0 stC3 100 "/cmd rm -rf /" =
      (add_log_entry stC3 "command_executed" (some 1) (some "rm -rf /") none 0,
       [Effect.sendMessage 100 (Msg.executing "rm -rf /"),
        Effect.sendMessage 100 (Msg.cmdResult false)]) :=
  cmd_refusal_amended env0 stC3 100 "/cmd rm -rf /" "rm -rf /"
    (mkUser 1 100 true false true) (by decide) rfl rfl (by decide) (by decide)
    (by decide)

/-- The pending access request of user 1 (Telegram id 100). -/
def pendingReq : AuthRequest :=
  { id := 1, user_id := 1, status := "pending", requested_at := 0,
    processed_at := none, processed_by_id := none }

/-- An unauthorized user with one pending AuthRequest. -/
def stC4 : Store :=
  { emptyStore with users := [mkUser 1 100 false false true],
                    auth_requests := [pendingReq] }

/-- Counterexample to C4: admin 7 approves user 100 via the
    auth_approve callback; the user's is_authorized flips to true, yet
    the pending request's processed-at field is still null — no handler
    ever calls update_auth_request. -/
theorem auth_processed_at_counterexample :
    ((callback_auth_approve env0 settings0 stC4 7 "auth_approve_100").1.auth_requests.map
       (fun r => r.processed_at)) = [none] ∧
    ((callback_auth_approve env0 settings0 stC4 7 "auth_approve_100").1.auth_requests.map
       (fun r => r.status)) = ["pending"] ∧
    ((callback_auth_approve env0 settings0 stC4 7 "auth_approve_100").1.users.map
       (fun u => u.is_authorized)) = [true] :=
  ⟨rfl, rfl, rfl⟩

/-- If the record written back by update_user has `is_authorized=false`,
    no user in the result is authorized unless it already was. -/
theorem update_user_no_new_auth (st : Store) (u : User)
    (hu : u.is_authorized = false) :
    ∀ v ∈ (update_user st u).users, v.is_authorized = true →
      ∃ w ∈ st.users, w.id = v.id ∧ w.is_authorized = true := by
  intro v hv hva
  simp only [update_user, List.mem_map] at hv
  obtain ⟨w, hw, hwv⟩ := hv
  by_cases hid : w.id == u.id
  · rw [if_pos hid] at hwv
    rw [← hwv] at hva
    exact absurd hva (by simp [hu])
  · rw [if_neg hid] at hwv
    exact ⟨w, hw, by rw [hwv], by rw [hwv]; exact hva⟩

/-- C4 as amended: an admin approval (via the auth_approve callback or
    the /auth command) sets the target user's is_authorized to true but
    leaves the AuthRequest table untouched — the pending request's
    processed-at field stays null; a rejection decision (either path)
    never makes any user authorized and also leaves the requests
    untouched. -/
theorem auth_decision_amended :
    (∀ (env : Env) (settings : Settings) (st : Store) (fromTid : Nat)
       (data : String) (uid : Nat) (user : User),
       fromTid ∈ settings.admin_ids → parseCallbackId data = some uid →
       get_user_by_telegram_id st uid = some user →
       ((callback_auth_approve env settings st fromTid data).1.auth_requests =
          st.auth_requests ∧
        { user with is_authorized := true,
                    is_admin := settings.admin_ids.contains uid } ∈
          (callback_auth_approve env settings st fromTid data).1.users)) ∧
    (∀ (env : Env) (settings : Settings) (st : Store) (fromTid uid : Nat)
       (text : String) (user : User),
       fromTid ∈ settings.admin_ids → (pySplit text).length ≥ 3 →
       pyParseInt ((pySplit text).getD 1 "") = some uid →
       pyLower ((pySplit text).getD 2 "") = "approve" →
       get_user_by_telegram_id st uid = some user →
       ((cmd_auth env settings st fromTid text).1.auth_requests =
          st.auth_requests ∧
        { user with is_authorized := true,
                    is_admin := settings.admin_ids.contains uid } ∈
          (cmd_auth env settings st fromTid text).1.users)) ∧
    (∀ (env : Env) (settings : Settings) (st : Store) (fromTid : Nat)
       (data : String),
       (callback_auth_reject env settings st fromTid data).1.auth_requests =
         st.auth_requests ∧
       ∀ v ∈ (callback_auth_reject env settings st fromTid data).1.users,
         v.is_authorized = true →
         ∃ w ∈ st.users, w.id = v.id ∧ w.is_authorized = true) ∧
    (∀ (env : Env) (settings : Settings) (st : Store) (fromTid : Nat)
       (text : String),
       pyLower ((pySplit text).getD 2 "") ≠ "approve" →
       ∀ v ∈ (cmd_auth env settings st fromTid text).1.users,
         v.is_authorized = true →
         ∃ w ∈ st.users, w.id = v.id ∧ w.is_authorized = true) := by
  refine ⟨?_, ?_, ?_, ?_⟩
  · intro env settings st fromTid data uid user hadm hparse hfind
    have hmem : user ∈ st.users := List.mem_of_find?_eq_some hfind
    constructor
    · simp [callback_auth_approve, hadm, hparse, hfind, update_user, add_log_entry]
    · simp only [callback_auth_approve, if_neg (not_not_intro hadm), hparse,
                 hfind, add_log_entry, update_user]
      exact List.mem_map.mpr ⟨user, hmem, by simp⟩
  · intro env settings st fromTid uid text user hadm hlen hparse hact hfind
    have hmem : user ∈ st.users := List.mem_of_find?_eq_some hfind
    have hlen2 : ¬ (pySplit text).length < 3 := by omega
    constructor
    · simp only [cmd_auth, if_neg (not_not_intro hadm), if_neg hlen2, hparse,
                 hact, hfind]
      simp [update_user, add_log_entry]
    · simp only [cmd_auth, if_neg (not_not_intro hadm), if_neg hlen2, hparse,
                 hact, hfind, add_log_entry, update_user]
      simp only [ne_eq, not_true_eq_false, false_and, if_false, beq_self_eq_true,
                 Bool.true_and, if_true]
      exact List.mem_map.mpr ⟨user, hmem, by simp⟩
  · intro env settings st fromTid data
    constructor
    · simp only [callback_auth_reject]
      split
      · rfl
      · split
        · rfl
        · split
          · rfl
          · simp [add_log_entry, update_user]
    · intro v hv hva
      simp only [callback_auth_reject] at hv
      split at hv
      · exact ⟨v, hv, rfl, hva⟩
      · split at hv
        · exact ⟨v, hv, rfl, hva⟩
        · split at hv
          · exact ⟨v, hv, rfl, hva⟩
          · simp only [add_log_entry] at hv
            exact update_user_no_new_auth st _ rfl v hv hva
  · intro env settings st fromTid text hact v hv hva
    simp only [cmd_auth] at hv
    split at hv
    · exact ⟨v, hv, rfl, hva⟩
    · split at hv
      · exact ⟨v, hv, rfl, hva⟩
      · split at hv
        · exact ⟨v, hv, rfl, hva⟩
        · split at hv
          · exact ⟨v, hv, rfl, hva⟩
          · split at hv
            · exact ⟨v, hv, rfl, hva⟩
            · split at hv <;>
              · simp only [add_log_entry] at hv
                refine update_user_no_new_auth st _ ?_ v hv hva
                exact beq_eq_false_iff_ne.mpr hact

/-- Witness for the amended C4 at the concrete pending-request store. -/
theorem auth_decision_amended_witness :
    ((callback_auth_approve env0 settings0 stC4 7 "auth_approve_100").1.auth_requests =
      stC4.auth_requests) ∧
    ((callback_auth_reject env0 settings0 stC4 7 "auth_reject_100").1.auth_requests =
      stC4.auth_requests) :=
  ⟨(auth_decision_amended.1 env0 settings0 stC4 7 "auth_approve_100" 100
      (mkUser 1 100 false false true) (by decide) (by decide) rfl).1,
   (auth_decision_amended.2.2.1 env0 settings0 stC4 7 "auth_reject_100").1⟩

/-- A /status event from the unknown user 42. -/
def ev42 : MsgEvent :=
  { from_id := 42, text := "/status", username := none, first_name := none,
    last_name := none }

/-- Counterexample to C6: the first inbound event of an unknown user is
    NOT guaranteed to create a User record — a first /status is answered
    with access-denied and the user table stays empty.  Only /start
    creates the record. -/
theorem first_event_user_creation_counterexample :
    get_user_by_telegram_id emptyStore 42 = none ∧
    (dispatch env0 settings0 emptyStore Cmd.status ev42).1.users = [] ∧
    (dispatch env0 settings0 emptyStore Cmd.status ev42).2 =
      [Effect.sendMessage 42 Msg.accessDenied] :=
  ⟨rfl, rfl, rfl⟩

/-- /auth from a sender with no stored record never inserts a User row
    and never creates one for the sender: every branch either returns the
    store untouched or (for a statically listed admin) rewrites existing
    rows in place via update_user, which preserves the row count and
    every row's Telegram id membership. -/
theorem cmd_auth_no_create (env : Env) (settings : Settings) (st : Store)
    (fromTid : Nat) (text : String)
    (h : get_user_by_telegram_id st fromTid = none) :
    get_user_by_telegram_id (cmd_auth env settings st fromTid text).1 fromTid = none ∧
    (cmd_auth env settings st fromTid text).1.users.length = st.users.length := by
  simp only [cmd_auth]
  split
  · exact ⟨h, rfl⟩
  · split
    · exact ⟨h, rfl⟩
    · split
      · exact ⟨h, rfl⟩
      · split
        · exact ⟨h, rfl⟩
        · split
          · exact ⟨h, rfl⟩
          · rename_i user heq
            have hmem : user ∈ st.users := List.mem_of_find?_eq_some heq
            have hnt : ¬ (user.telegram_id == fromTid) = true :=
              List.find?_eq_none.mp h user hmem
            constructor
            · split <;>
              · simp only [add_log_entry, update_user, get_user_by_telegram_id]
                apply List.find?_eq_none.mpr
                intro v hv
                rcases List.mem_map.mp hv with ⟨w, hw, rfl⟩
                split
                · simpa using hnt
                · exact List.find?_eq_none.mp h w hw
            · split <;> simp [add_log_entry, update_user]

/-- C6 as amended: for a user U with no stored record, the first /start
    command from U creates exactly one User record for U, and that record
    has is_authorized=false; dispatching any command other than /start as
    U's first inbound event creates no User record — the user table gains
    no row and still holds no record for U. -/
theorem first_start_creates_user_amended :
    (∀ (env : Env) (st : Store) (tid : Nat) (un fn ln : Option String),
      get_user_by_telegram_id st tid = none →
      ((cmd_start env st tid un fn ln).1.users =
         st.users ++ [{ id := st.users.length + 1, telegram_id := tid,
                        username := un, first_name := fn, last_name := ln,
                        is_authorized := false, is_admin := false,
                        notifications_enabled := true, created_at := env.now }] ∧
       (cmd_start env st tid un fn ln).1.users.countP
          (fun u => u.telegram_id == tid) = 1)) ∧
    (∀ (env : Env) (settings : Settings) (st : Store) (c : Cmd) (ev : MsgEvent),
      c ≠ Cmd.start →
      get_user_by_telegram_id st ev.from_id = none →
      (get_user_by_telegram_id (dispatch env settings st c ev).1 ev.from_id = none ∧
       (dispatch env settings st c ev).1.users.length = st.users.length)) := by
  constructor
  · intro env st tid un fn ln h
    have husers : (cmd_start env st tid un fn ln).1.users =
        st.users ++ [{ id := st.users.length + 1, telegram_id := tid,
                       username := un, first_name := fn, last_name := ln,
                       is_authorized := false, is_admin := false,
                       notifications_enabled := true, created_at := env.now }] := by
      simp [cmd_start, h, create_user, add_log_entry]
    refine ⟨husers, ?_⟩
    rw [husers, List.countP_append]
    have hzero : st.users.countP (fun u => u.telegram_id == tid) = 0 := by
      rw [List.countP_eq_zero]
      intro a ha
      simpa using List.find?_eq_none.mp h a ha
    simp [hzero, List.countP_cons]
  · intro env settings st c ev hne h
    cases c with
    | start => exact absurd rfl hne
    | help => exact ⟨h, rfl⟩
    | auth => exact cmd_auth_no_create env settings st ev.from_id ev.text h
    | logs =>
      simp only [dispatch, cmd_logs]
      split
      · exact ⟨h, rfl⟩
      · split
        · exact ⟨h, rfl⟩
        · exact ⟨h, rfl⟩
    | wake => simp [dispatch, cmd_wake, h]
    | status => simp [dispatch, cmd_status, h]
    | screenshot => simp [dispatch, cmd_screenshot, h]
    | reboot => simp [dispatch, cmd_reboot, h]
    | shutdown => simp [dispatch, cmd_shutdown, h]
    | cancel => simp [dispatch, cmd_cancel, h]
    | cmd => simp [dispatch, cmd_command, h]
    | processes => simp [dispatch, cmd_processes, h]
    | notify => simp [dispatch, cmd_notify, h]
    | dota => simp [dispatch, cmd_dota, h]
    | dotahistory => simp [dispatch, cmd_dota_history, h]
    | dotalive => simp [dispatch, cmd_dota_live, h]
    | dotabuffs => simp [dispatch, cmd_dota_buffs, h]

/-- An /auth approve command sent by static admin 7, who has no stored
    User record of their own. -/
def evAuth : MsgEvent :=
  { from_id := 7, text := "/auth 100 approve", username := none,
    first_name := none, last_name := none }

/-- Witness for the amended C6: /start from unknown user 42 on the empty
    store creates exactly one unauthorized record; and the interesting
    other case — a record-less static admin running /auth, which does
    mutate existing rows — still inserts no User row and leaves the
    admin without a record. -/
theorem first_start_creates_user_amended_witness :
    (cmd_start env0 emptyStore 42 none none none).1.users =
      [{ id := 1, telegram_id := 42, username := none, first_name := none,
         last_name := none, is_authorized := false, is_admin := false,
         notifications_enabled := true, created_at := 0 }] ∧
    get_user_by_telegram_id (dispatch env0 settings0 stC4 Cmd.auth evAuth).1 7 =
      none ∧
    (dispatch env0 settings0 stC4 Cmd.auth evAuth).1.users.length =
      stC4.users.length :=
  ⟨(first_start_creates_user_amended.1 env0 emptyStore 42 none none none rfl).1,
   (first_start_creates_user_amended.2 env0 settings0 stC4 Cmd.auth evAuth
      (by decide) rfl).1,
   (first_start_creates_user_amended.2 env0 settings0 stC4 Cmd.auth evAuth
      (by decide) rfl).2⟩

/-- A trust level below Admin means the sender is outside the static
    admin id list. -/
theorem trustLevel_lt_two_not_admin (st : Store) (ids : List Nat) (tid : Nat)
    (h : trustLevel st ids tid < 2) : tid ∉ ids := by
  intro hmem
  simp [trustLevel, hmem] at h

/-- A trust level below Authorized means the sender has no stored record
    or a record with is_authorized=false (and is outside the admin list,
    which the handlers in question do not consult). -/
theorem trustLevel_lt_one_unauthorized (st : Store) (ids : List Nat) (tid : Nat)
    (h : trustLevel st ids tid < 1) :
    get_user_by_telegram_id st tid = none ∨
    ∃ u, get_user_by_telegram_id st tid = some u ∧ u.is_authorized = false := by
  by_cases hmem : tid ∈ ids
  · simp [trustLevel, hmem] at h
  · cases hu : get_user_by_telegram_id st tid with
    | none => exact Or.inl rfl
    | some u =>
      refine Or.inr ⟨u, rfl, ?_⟩
      cases ha : u.is_authorized with
      | false => rfl
      | true =>
        exfalso
        cases hb : u.is_admin <;> simp [trustLevel, hmem, hu, ha, hb] at h

/-- C2: dispatching any command from a sender whose computed trust level
    is below the command's required level returns the access-denied
    response and the store exactly as it was — no handler body runs, no
    entity is created or mutated, no audit entry is written. -/
theorem dispatch_gating_safety :
    ∀ (env : Env) (settings : Settings) (st : Store) (c : Cmd) (ev : MsgEvent),
      trustLevel st settings.admin_ids ev.from_id < requiredLevel c →
      dispatch env settings st c ev =
        (st, [Effect.sendMessage ev.from_id Msg.accessDenied]) := by
  intro env settings st c ev h
  cases c with
  | start => exact absurd h (Nat.not_lt_zero _)
  | help => exact absurd h (Nat.not_lt_zero _)
  | auth =>
    have hm : ev.from_id ∉ settings.admin_ids := trustLevel_lt_two_not_admin _ _ _ h
    simp [dispatch, cmd_auth, hm]
  | logs =>
    have hm : ev.from_id ∉ settings.admin_ids := trustLevel_lt_two_not_admin _ _ _ h
    simp [dispatch, cmd_logs, hm]
  | wake =>
    rcases trustLevel_lt_one_unauthorized _ _ _ h with hnone | ⟨u, hu, ha⟩
    · simp [dispatch, cmd_wake, hnone]
    · simp [dispatch, cmd_wake, hu, ha]
  | status =>
    rcases trustLevel_lt_one_unauthorized _ _ _ h with hnone | ⟨u, hu, ha⟩
    · simp [dispatch, cmd_status, hnone]
    · simp [dispatch, cmd_status, hu, ha]
  | screenshot =>
    rcases trustLevel_lt_one_unauthorized _ _ _ h with hnone | ⟨u, hu, ha⟩
    · simp [dispatch, cmd_screenshot, hnone]
    · simp [dispatch, cmd_screenshot, hu, ha]
  | reboot =>
    rcases trustLevel_lt_one_unauthorized _ _ _ h with hnone | ⟨u, hu, ha⟩
    · simp [dispatch, cmd_reboot, hnone]
    · simp [dispatch, cmd_reboot, hu, ha]
  | shutdown =>
    rcases trustLevel_lt_one_unauthorized _ _ _ h with hnone | ⟨u, hu, ha⟩
    · simp [dispatch, cmd_shutdown, hnone]
    · simp [dispatch, cmd_shutdown, hu, ha]
  | cancel =>
    rcases trustLevel_lt_one_unauthorized _ _ _ h with hnone | ⟨u, hu, ha⟩
    · simp [dispatch, cmd_cancel, hnone]
    · simp [dispatch, cmd_cancel, hu, ha]
  | cmd =>
    rcases trustLevel_lt_one_unauthorized _ _ _ h with hnone | ⟨u, hu, ha⟩
    · simp [dispatch, cmd_command, hnone]
    · simp [dispatch, cmd_command, hu, ha]
  | processes =>
    rcases trustLevel_lt_one_unauthorized _ _ _ h with hnone | ⟨u, hu, ha⟩
    · simp [dispatch, cmd_processes, hnone]
    · simp [dispatch, cmd_processes, hu, ha]
  | notify =>
    rcases trustLevel_lt_one_unauthorized _ _ _ h with hnone | ⟨u, hu, ha⟩
    · simp [dispatch, cmd_notify, hnone]
    · simp [dispatch, cmd_notify, hu, ha]
  | dota =>
    rcases trustLevel_lt_one_unauthorized _ _ _ h with hnone | ⟨u, hu, ha⟩
    · simp [dispatch, cmd_dota, hnone]
    · simp [dispatch, cmd_dota, hu, ha]
  | dotahistory =>
    rcases trustLevel_lt_one_unauthorized _ _ _ h with hnone | ⟨u, hu, ha⟩
    · simp [dispatch, cmd_dota_history, hnone]
    · simp [dispatch, cmd_dota_history, hu, ha]
  | dotalive =>
    rcases trustLevel_lt_one_unauthorized _ _ _ h with hnone | ⟨u, hu, ha⟩
    · simp [dispatch, cmd_dota_live, hnone]
    · simp [dispatch, cmd_dota_live, hu, ha]
  | dotabuffs =>
    rcases trustLevel_lt_one_unauthorized _ _ _ h with hnone | ⟨u, hu, ha⟩
    · simp [dispatch, cmd_dota_buffs, hnone]
    · simp [dispatch, cmd_dota_buffs, hu, ha]

/-- A /status event from the unauthorized user 5. -/
def ev5 : MsgEvent :=
  { from_id := 5, text := "/status", username := none, first_name := none,
    last_name := none }

/-- Witness for C2: user 5 (no record, not an admin) dispatching /status
    is denied with the store unchanged. -/
theorem dispatch_gating_safety_witness :
    trustLevel emptyStore settings0.admin_ids 5 < requiredLevel Cmd.status ∧
    dispatch env0 settings0 emptyStore Cmd.status ev5 =
      (emptyStore, [Effect.sendMessage 5 Msg.accessDenied]) :=
  ⟨by decide, dispatch_gating_safety env0 settings0 emptyStore Cmd.status ev5 (by decide)⟩

end Control
